import Mathlib

/-!
Shallow embedding of `src/player_event_handler.rs` (BIOS9/librespot):
the player-event-to-JSON translation table, the listener loop that drains
the event channel, and the sink-status notifier.
-/

namespace PlayerEventHandler

/-- Modelled from the spec: `TrackIdentifier` — "an opaque binary identifier
with a fallible textual (base62) encoding" (librespot core's `SpotifyId`,
whose definition is not under `src/`; only the success/failure outcome of
`to_base62` is observable to this module). -/
inductive SpotifyId where
  | valid (s : String)
  | invalid (err : String)
deriving Repr, DecidableEq

/-- Modelled from the spec: the fallible base62 textual encoding of a
`TrackIdentifier`; "encoding failure is a distinct, recoverable condition". -/
def SpotifyId.to_base62 : SpotifyId → Except String String
  | .valid s => .ok s
  | .invalid e => .error e

/-- A JSON document, mirroring `serde_json::Value` as used by this module
(all numbers appearing here are integers; object fields kept in insertion
order). -/
inductive Value where
  | null
  | bool (b : Bool)
  | num (n : Int)
  | str (s : String)
  | arr (elems : List Value)
  | obj (fields : List (String × Value))

/-- Escape of one character inside a JSON string (quote and backslash; the
strings this module emits contain no control characters). -/
def escapeChar (c : Char) : String :=
  if c = '"' then "\\\"" else if c = '\\' then "\\\\" else String.singleton c

/-- Escape of a JSON string body. -/
def escapeString (s : String) : String :=
  String.join (s.data.map escapeChar)

mutual

/-- Compact one-line JSON rendering, as `serde_json::to_string` / `Display`
produce for the documents this module builds. -/
def Value.render : Value → String
  | .null => "null"
  | .bool true => "true"
  | .bool false => "false"
  | .num n => toString n
  | .str s => "\"" ++ escapeString s ++ "\""
  | .arr elems => "[" ++ String.intercalate "," (renderElems elems) ++ "]"
  | .obj fields => "\x7b" ++ String.intercalate "," (renderFields fields) ++ "\x7d"

/-- Renders each element of a JSON array. -/
def renderElems : List Value → List String
  | [] => []
  | v :: vs => v.render :: renderElems vs

/-- Renders each `"key":value` pair of a JSON object. -/
def renderFields : List (String × Value) → List String
  | [] => []
  | (k, v) :: fs => ("\"" ++ escapeString k ++ "\":" ++ v.render) :: renderFields fs

end

/-- The keys of a JSON object, in insertion order. -/
def Value.objKeys : Value → List String
  | .obj fields => fields.map Prod.fst
  | _ => []

/-- Field lookup in a JSON object. -/
def Value.lookup (k : String) : Value → Option Value
  | .obj fields => List.lookup k fields
  | _ => none

/-- A cover image of an audio item; the `TrackChanged` arm reads `c.url`. -/
structure CoverImage where
  url : String

/-- An artist entry; the `TrackChanged` arm reads `a.name` (librespot's
`ArtistWithRole`, with the role field unused by this module). -/
structure ArtistWithRole where
  name : String

/-- Modelled from the spec: the publish time of an episode, observed only
through its Unix-seconds rendering (`publish_time.unix_timestamp()`); the
underlying `OffsetDateTime` type is not under `src/`. -/
structure OffsetDateTime where
  unix_timestamp : Int

/-- The nested tagged union embedded in `TrackChanged` payloads
(librespot's `metadata::audio::UniqueFields`), with exactly the fields the
`TrackChanged` arm destructures. The `artists` newtype wrapper
(`artists.0` in the source) is flattened to the list it wraps. -/
inductive UniqueFields where
  | Track (artists : List ArtistWithRole) (album : String)
      (album_artists : List String) (popularity : Int) (number : Int)
      (disc_number : Int)
  | Episode (description : String) (publish_time : OffsetDateTime)
      (show_name : String)

/-- The track/episode descriptor carried by `TrackChanged`, with exactly
the fields the arm reads. -/
structure AudioItem where
  track_id : SpotifyId
  uri : String
  name : String
  covers : List CoverImage
  language : List String
  duration_ms : Int
  is_explicit : Bool
  unique_fields : UniqueFields

/-- The closed player-event variant set, with the fields each match arm of
`EventHandler::new` binds (fields elided by `..` in the source patterns are
omitted, as the module never reads them). -/
inductive PlayerEvent where
  | PlayRequestIdChanged (play_request_id : Int)
  | TrackChanged (audio_item : AudioItem)
  | Stopped (track_id : SpotifyId)
  | Playing (track_id : SpotifyId) (position_ms : Int)
  | Paused (track_id : SpotifyId) (position_ms : Int)
  | Loading (track_id : SpotifyId)
  | Preloading (track_id : SpotifyId)
  | TimeToPreloadNextTrack (track_id : SpotifyId)
  | EndOfTrack (track_id : SpotifyId)
  | Unavailable (track_id : SpotifyId)
  | VolumeChanged (volume : Int)
  | Seeked (track_id : SpotifyId) (position_ms : Int)
  | PositionCorrection (track_id : SpotifyId) (position_ms : Int)
  | SessionConnected (connection_id : String) (user_name : String)
  | SessionDisconnected (connection_id : String) (user_name : String)
  | SessionClientChanged (client_id : String) (client_name : String)
      (client_brand_name : String) (client_model_name : String)
  | ShuffleChanged (shuffle : Bool)
  | RepeatChanged (repeat_state : Bool)
  | AutoPlayChanged (auto_play : Bool)
  | FilterExplicitContentChanged (filter : Bool)

/-- Embedding of a serialized `Option<Value>`: `serde_json` renders `None`
as `null` and `Some(v)` as `v` (the `extraFields` sub-object). -/
def encodeOption : Option Value → Value
  | none => .null
  | some v => v

/-- The `match audio_item.unique_fields` expression inside the
`TrackChanged` arm (source lines 50-81): the `extraFields` sub-object. -/
def encodeUniqueFields : UniqueFields → Option Value
  | .Track artists album album_artists popularity number disc_number =>
      some (.obj [
        ("itemType", .str "Track"),
        ("albumArtists", .arr (album_artists.map Value.str)),
        ("album", .str album),
        ("popularity", .num popularity),
        ("number", .num number),
        ("discNumber", .num disc_number),
        ("artists", .arr (artists.map fun a => Value.str a.name))])
  | .Episode description publish_time show_name =>
      some (.obj [
        ("itemType", .str "Episode"),
        ("description", .str description),
        ("publishTime", .num publish_time.unix_timestamp),
        ("showName", .str show_name)])

/-- The state of the loop body's two mutable locals after the big match:
`event_name` (initialized `"unknown"`), `json_obj` (initialized `None`),
plus the warnings logged while matching. -/
structure TranslateResult where
  event_name : String
  json_obj : Option Value
  warnings : List String

/-- The translation table: the `match event.clone()` of `EventHandler::new`
(source lines 25-268), one arm per variant, transcribed literally. Arms for
track-carrying variants set `event_name`/`json_obj` only on a successful
`to_base62`; on failure they log one warning naming the variant (the
`TrackChanged` arm sets its name before attempting the encoding). -/
def translate (event : PlayerEvent) : TranslateResult :=
  match event with
  | .PlayRequestIdChanged play_request_id =>
      ⟨"playRequestIdChanged",
       some (.obj [("playRequestId", .num play_request_id)]), []⟩
  | .TrackChanged audio_item =>
      match audio_item.track_id.to_base62 with
      | .error e =>
          ⟨"trackChanged", none,
           ["PlayerEvent::TrackChanged: Invalid track id: " ++ e]⟩
      | .ok id =>
          ⟨"trackChanged",
           some (.obj [
             ("trackId", .str id),
             ("uri", .str audio_item.uri),
             ("name", .str audio_item.name),
             ("covers", .arr (audio_item.covers.map fun c => Value.str c.url)),
             ("language", .arr (audio_item.language.map Value.str)),
             ("durationMs", .num audio_item.duration_ms),
             ("isExplicit", .bool audio_item.is_explicit),
             ("extraFields",
              encodeOption (encodeUniqueFields audio_item.unique_fields))]),
           []⟩
  | .Stopped track_id =>
      match track_id.to_base62 with
      | .error e =>
          ⟨"unknown", none, ["PlayerEvent::Stopped: Invalid track id: " ++ e]⟩
      | .ok id => ⟨"stopped", some (.obj [("trackId", .str id)]), []⟩
  | .Playing track_id position_ms =>
      match track_id.to_base62 with
      | .error e =>
          ⟨"unknown", none, ["PlayerEvent::Playing: Invalid track id: " ++ e]⟩
      | .ok id =>
          ⟨"playing",
           some (.obj [("trackId", .str id), ("positionMs", .num position_ms)]),
           []⟩
  | .Paused track_id position_ms =>
      match track_id.to_base62 with
      | .error e =>
          ⟨"unknown", none, ["PlayerEvent::Paused: Invalid track id: " ++ e]⟩
      | .ok id =>
          ⟨"paused",
           some (.obj [("trackId", .str id), ("positionMs", .num position_ms)]),
           []⟩
  | .Loading track_id =>
      match track_id.to_base62 with
      | .error e =>
          ⟨"unknown", none, ["PlayerEvent::Loading: Invalid track id: " ++ e]⟩
      | .ok id => ⟨"loading", some (.obj [("trackId", .str id)]), []⟩
  | .Preloading track_id =>
      match track_id.to_base62 with
      | .error e =>
          ⟨"unknown", none, ["PlayerEvent::Preloading: Invalid track id: " ++ e]⟩
      | .ok id => ⟨"preloading", some (.obj [("trackId", .str id)]), []⟩
  | .TimeToPreloadNextTrack track_id =>
      match track_id.to_base62 with
      | .error e =>
          ⟨"unknown", none,
           ["PlayerEvent::TimeToPreloadNextTrack: Invalid track id: " ++ e]⟩
      | .ok id => ⟨"timeToPreloadNextTrack", some (.obj [("trackId", .str id)]), []⟩
  | .EndOfTrack track_id =>
      match track_id.to_base62 with
      | .error e =>
          ⟨"unknown", none, ["PlayerEvent::EndOfTrack: Invalid track id: " ++ e]⟩
      | .ok id => ⟨"endOfTrack", some (.obj [("trackId", .str id)]), []⟩
  | .Unavailable track_id =>
      match track_id.to_base62 with
      | .error e =>
          ⟨"unknown", none, ["PlayerEvent::Unavailable: Invalid track id: " ++ e]⟩
      | .ok id => ⟨"unavailable", some (.obj [("trackId", .str id)]), []⟩
  | .VolumeChanged volume =>
      ⟨"volumeChanged", some (.obj [("volume", .num volume)]), []⟩
  | .Seeked track_id position_ms =>
      match track_id.to_base62 with
      | .error e =>
          ⟨"unknown", none, ["PlayerEvent::Seeked: Invalid track id: " ++ e]⟩
      | .ok id =>
          ⟨"seeked",
           some (.obj [("trackId", .str id), ("positionMs", .num position_ms)]),
           []⟩
  | .PositionCorrection track_id position_ms =>
      match track_id.to_base62 with
      | .error e =>
          ⟨"unknown", none,
           ["PlayerEvent::PositionCorrection: Invalid track id: " ++ e]⟩
      | .ok id =>
          ⟨"positionCorrection",
           some (.obj [("trackId", .str id), ("positionMs", .num position_ms)]),
           []⟩
  | .SessionConnected connection_id user_name =>
      ⟨"sessionConnected",
       some (.obj [("connectionId", .str connection_id),
                   ("userName", .str user_name)]), []⟩
  | .SessionDisconnected connection_id user_name =>
      ⟨"sessionDisconnected",
       some (.obj [("connectionId", .str connection_id),
                   ("userName", .str user_name)]), []⟩
  | .SessionClientChanged client_id client_name client_brand_name
      client_model_name =>
      ⟨"sessionClientChanged",
       some (.obj [("clientId", .str client_id),
                   ("clientName", .str client_name),
                   ("clientBrandName", .str client_brand_name),
                   ("cleintModelName", .str client_model_name)]), []⟩
  | .ShuffleChanged shuffle =>
      ⟨"shuffleChanged", some (.obj [("shuffle", .bool shuffle)]), []⟩
  | .RepeatChanged repeat_state =>
      ⟨"repeatChanged", some (.obj [("repeat", .bool repeat_state)]), []⟩
  | .AutoPlayChanged auto_play =>
      ⟨"autoPlayChanged", some (.obj [("autoPlay", .bool auto_play)]), []⟩
  | .FilterExplicitContentChanged filter =>
      ⟨"filterExplicitContentChanged",
       some (.obj [("filter", .bool filter)]), []⟩

/-- One output line `raise_event <event_name> <payload>` written by
`eprintln!` at source line 273. -/
structure Line where
  event_name : String
  payload : String
deriving Repr, DecidableEq

/-- The text of an output line. -/
def Line.render (l : Line) : String :=
  "raise_event " ++ l.event_name ++ " " ++ l.payload

/-- The loop body's emission step (source lines 270-280): if the match
produced a payload, serialize it; on success write one line, on failure log
a warning and continue. `ser` stands for `serde_json::to_string`, kept
abstract so that its failure path is in the model. Returns the lines
written and the warnings logged for this one event. -/
def processEvent (ser : Value → Except String String) (event : PlayerEvent) :
    List Line × List String :=
  match translate event with
  | ⟨event_name, some v, warnings⟩ =>
      match ser v with
      | .ok s => ([⟨event_name, s⟩], warnings)
      | .error e =>
          ([], warnings ++ ["Failed to serialize PlayerEvent: " ++ e])
  | ⟨_, none, warnings⟩ => ([], warnings)

/-- The trace of one run of the listener loop: lines written, warnings
logged, and how many events were received before the channel closed. -/
structure ListenerRun where
  lines : List Line
  warnings : List String
  processed : Nat

/-- The listener loop of `EventHandler::new` (source lines 18-283) on the
finite event sequence the channel delivers before closing:
`blocking_recv` returning `None` breaks the loop; each received event is
handled by the loop body exactly once, in order. -/
def runListener (ser : Value → Except String String) :
    List PlayerEvent → ListenerRun
  | [] => ⟨[], [], 0⟩
  | e :: rest =>
      let p := processEvent ser e
      let r := runListener ser rest
      ⟨p.1 ++ r.lines, p.2 ++ r.warnings, r.processed + 1⟩

/-- The `EventHandler` struct: its only field is the join handle of the
background thread, which (in this embedding of the finite-trace semantics)
holds the completed run of the listener loop. -/
structure EventHandler where
  thread_handle : Option ListenerRun

/-- `EventHandler::new`: spawns the listener loop over the channel's event
sequence and stores the join handle. -/
def EventHandler.new (ser : Value → Except String String)
    (player_events : List PlayerEvent) : EventHandler :=
  ⟨some (runListener ser player_events)⟩

/-- `impl Drop for EventHandler` (source lines 289-298): takes the handle
and joins the background thread, yielding its completed run. -/
def EventHandler.drop (h : EventHandler) : Option ListenerRun :=
  h.thread_handle

/-- The sink status enum (librespot's `SinkStatus`, a closed three-valued
enum per the spec's data model). -/
inductive SinkStatus where
  | Running
  | TemporarilyClosed
  | Closed
deriving Repr, DecidableEq

/-- `handle_sink_events` (source lines 300-308): the one line it writes to
the diagnostic stream. -/
def handle_sink_events (sink_status : SinkStatus) : String :=
  "raise_event sink " ++ (Value.obj [
    ("sinkStatus", .str (match sink_status with
      | .Running => "running"
      | .TemporarilyClosed => "temporarily_closed"
      | .Closed => "closed"))]).render

/-- The track identifier a variant's arm attempts to base62-encode: present
exactly for the eleven track-carrying variants. -/
def eventTrackId : PlayerEvent → Option SpotifyId
  | .TrackChanged audio_item => some audio_item.track_id
  | .Stopped track_id => some track_id
  | .Playing track_id _ => some track_id
  | .Paused track_id _ => some track_id
  | .Loading track_id => some track_id
  | .Preloading track_id => some track_id
  | .TimeToPreloadNextTrack track_id => some track_id
  | .EndOfTrack track_id => some track_id
  | .Unavailable track_id => some track_id
  | .Seeked track_id _ => some track_id
  | .PositionCorrection track_id _ => some track_id
  | _ => none

/-- The variant name as it appears in the arm's warning message. -/
def variantTag : PlayerEvent → String
  | .PlayRequestIdChanged _ => "PlayRequestIdChanged"
  | .TrackChanged _ => "TrackChanged"
  | .Stopped _ => "Stopped"
  | .Playing _ _ => "Playing"
  | .Paused _ _ => "Paused"
  | .Loading _ => "Loading"
  | .Preloading _ => "Preloading"
  | .TimeToPreloadNextTrack _ => "TimeToPreloadNextTrack"
  | .EndOfTrack _ => "EndOfTrack"
  | .Unavailable _ => "Unavailable"
  | .VolumeChanged _ => "VolumeChanged"
  | .Seeked _ _ => "Seeked"
  | .PositionCorrection _ _ => "PositionCorrection"
  | .SessionConnected _ _ => "SessionConnected"
  | .SessionDisconnected _ _ => "SessionDisconnected"
  | .SessionClientChanged _ _ _ _ => "SessionClientChanged"
  | .ShuffleChanged _ => "ShuffleChanged"
  | .RepeatChanged _ => "RepeatChanged"
  | .AutoPlayChanged _ => "AutoPlayChanged"
  | .FilterExplicitContentChanged _ => "FilterExplicitContentChanged"

end PlayerEventHandler

namespace PlayerEventHandler

/-- Structure-eta reformulation of the emission step in terms of the fields
of `translate`'s result. -/
lemma processEvent_def (ser : Value → Except String String)
    (event : PlayerEvent) :
    processEvent ser event =
      match (translate event).json_obj with
      | some v =>
          (match ser v with
           | .ok s => ([⟨(translate event).event_name, s⟩],
               (translate event).warnings)
           | .error e => ([],
               (translate event).warnings ++
                 ["Failed to serialize PlayerEvent: " ++ e]))
      | none => ([], (translate event).warnings) := by
  rcases h : translate event with ⟨n, j, w⟩
  rcases j with _ | v
  · simp [processEvent, h]
  · cases hs : ser v <;> simp [processEvent, h, hs]

/-- Unfolding of one loop iteration. -/
lemma runListener_cons (ser : Value → Except String String)
    (e : PlayerEvent) (rest : List PlayerEvent) :
    runListener ser (e :: rest) =
      ⟨(processEvent ser e).1 ++ (runListener ser rest).lines,
       (processEvent ser e).2 ++ (runListener ser rest).warnings,
       (runListener ser rest).processed + 1⟩ := rfl

/-- C1, counterexample: the `PlayRequestIdChanged` arm (source line 27) sets
the notification name to `"playRequestIdChanged"`, not `"playRequestId"` as
the claim states; at the concrete event `PlayRequestIdChanged(7)` the
emitted name differs from the claimed one. -/
theorem C1_playRequestId_name_counterexample :
    (translate (.PlayRequestIdChanged 7)).event_name ≠ "playRequestId" := by
  decide

/-- C1, amended: for the `PlayRequestIdChanged` event variant, `translate`
returns the notification name `"playRequestIdChanged"` and a payload
containing exactly the field `playRequestId` with the event's
`play_request_id` value. -/
theorem C1_playRequestIdChanged_translate (play_request_id : Int) :
    translate (.PlayRequestIdChanged play_request_id) =
      ⟨"playRequestIdChanged",
       some (.obj [("playRequestId", .num play_request_id)]), []⟩ := rfl

/-- C2, counterexample: the `SessionClientChanged` payload (source line 240)
spells its fourth key `"cleintModelName"`, so at a concrete event the key
set is not the claimed one and `"clientModelName"` is absent. -/
theorem C2_sessionClientChanged_key_counterexample :
    (((translate (.SessionClientChanged "a" "b" "c" "d")).json_obj).getD
        .null).objKeys ≠
      ["clientId", "clientName", "clientBrandName", "clientModelName"] ∧
    "clientModelName" ∉
      (((translate (.SessionClientChanged "a" "b" "c" "d")).json_obj).getD
        .null).objKeys := by
  constructor <;> decide

/-- C2, amended: for the `SessionClientChanged` event variant, `translate`
returns the notification name `"sessionClientChanged"` and a payload whose
keys are exactly `clientId`, `clientName`, `clientBrandName`, and the
literal wire key `cleintModelName` (sic), bound to the corresponding event
fields. -/
theorem C2_sessionClientChanged_translate (client_id client_name
    client_brand_name client_model_name : String) :
    translate (.SessionClientChanged client_id client_name client_brand_name
        client_model_name) =
      ⟨"sessionClientChanged",
       some (.obj [("clientId", .str client_id),
                   ("clientName", .str client_name),
                   ("clientBrandName", .str client_brand_name),
                   ("cleintModelName", .str client_model_name)]), []⟩ := rfl

/-- C5: `handle_sink_events` is total over the three-valued `SinkStatus`
enum with no failure path; for every status it writes exactly one line
`raise_event sink \x7b"sinkStatus": <value>\x7d` with `Running` mapped to
`"running"`, `TemporarilyClosed` to `"temporarily_closed"` and `Closed` to
`"closed"`. -/
theorem C5_handle_sink_events_total :
    handle_sink_events .Running =
        "raise_event sink \x7b\"sinkStatus\":\"running\"\x7d" ∧
    handle_sink_events .TemporarilyClosed =
        "raise_event sink \x7b\"sinkStatus\":\"temporarily_closed\"\x7d" ∧
    handle_sink_events .Closed =
        "raise_event sink \x7b\"sinkStatus\":\"closed\"\x7d" := by
  refine ⟨?_, ?_, ?_⟩ <;> rfl

end PlayerEventHandler

namespace PlayerEventHandler

/-- C3: for every event of a track-carrying variant (`TrackChanged`,
`Stopped`, `Playing`, `Paused`, `Loading`, `Preloading`,
`TimeToPreloadNextTrack`, `EndOfTrack`, `Unavailable`, `Seeked`,
`PositionCorrection`) whose track identifier fails base62 encoding, no
payload is produced and hence no output line is emitted for that event,
exactly one warning naming the variant is logged, and the listener loop
continues with the remaining events. -/
theorem C3_encode_failure_suppresses (ser : Value → Except String String)
    (e : PlayerEvent) (tid : SpotifyId) (err : String)
    (rest : List PlayerEvent) (h1 : eventTrackId e = some tid)
    (h2 : tid.to_base62 = .error err) :
    (translate e).json_obj = none ∧
    (translate e).warnings =
      ["PlayerEvent::" ++ variantTag e ++ ": Invalid track id: " ++ err] ∧
    (runListener ser (e :: rest)).lines = (runListener ser rest).lines ∧
    (runListener ser (e :: rest)).warnings =
      ["PlayerEvent::" ++ variantTag e ++ ": Invalid track id: " ++ err] ++
        (runListener ser rest).warnings ∧
    (runListener ser (e :: rest)).processed =
      (runListener ser rest).processed + 1 := by
  have key : (translate e).json_obj = none ∧ (translate e).warnings =
      ["PlayerEvent::" ++ variantTag e ++ ": Invalid track id: " ++ err] := by
    cases e <;> simp [eventTrackId] at h1 <;> (try subst h1) <;>
      simp [translate, variantTag, h2]
  obtain ⟨hnone, hwarn⟩ := key
  have hp : processEvent ser e = ([], (translate e).warnings) := by
    rw [processEvent_def, hnone]
  refine ⟨hnone, hwarn, ?_, ?_, ?_⟩ <;> simp [runListener_cons, hp, hwarn]

/-- Witness for C3 at the concrete event `Stopped` with an identifier whose
base62 encoding fails with message `"bad"`, an empty remaining event list,
and the rendering serializer. -/
theorem C3_encode_failure_suppresses_witness :
    (translate (.Stopped (.invalid "bad"))).json_obj = none ∧
    (translate (.Stopped (.invalid "bad"))).warnings =
      ["PlayerEvent::" ++ variantTag (.Stopped (.invalid "bad")) ++
        ": Invalid track id: " ++ "bad"] ∧
    (runListener (fun v => .ok v.render)
        (.Stopped (.invalid "bad") :: [])).lines =
      (runListener (fun v => .ok v.render) []).lines ∧
    (runListener (fun v => .ok v.render)
        (.Stopped (.invalid "bad") :: [])).warnings =
      ["PlayerEvent::" ++ variantTag (.Stopped (.invalid "bad")) ++
        ": Invalid track id: " ++ "bad"] ++
        (runListener (fun v => .ok v.render) []).warnings ∧
    (runListener (fun v => .ok v.render)
        (.Stopped (.invalid "bad") :: [])).processed =
      (runListener (fun v => .ok v.render) []).processed + 1 :=
  C3_encode_failure_suppresses (fun v => .ok v.render)
    (.Stopped (.invalid "bad")) (.invalid "bad") "bad" [] rfl rfl

/-- C4: in the `TrackChanged` payload the `extraFields` sub-object is the
encoded `UniqueFields` value; a `Track` value serializes with `itemType`
the literal string `"Track"` and fields `albumArtists`, `album`,
`popularity`, `number`, `discNumber` and `artists` (the artist names), an
`Episode` value serializes with `itemType` the literal string `"Episode"`
and fields `description`, `publishTime` (Unix seconds) and `showName`, and
no field of the other variant appears in either case. -/
theorem C4_extraFields_encoding (audio_item : AudioItem) (id : String)
    (h : audio_item.track_id.to_base62 = .ok id) :
    (translate (.TrackChanged audio_item)).json_obj =
      some (.obj [
        ("trackId", .str id),
        ("uri", .str audio_item.uri),
        ("name", .str audio_item.name),
        ("covers", .arr (audio_item.covers.map fun c => Value.str c.url)),
        ("language", .arr (audio_item.language.map Value.str)),
        ("durationMs", .num audio_item.duration_ms),
        ("isExplicit", .bool audio_item.is_explicit),
        ("extraFields",
         encodeOption (encodeUniqueFields audio_item.unique_fields))]) ∧
    (∀ artists album album_artists popularity number disc_number,
      encodeUniqueFields
          (.Track artists album album_artists popularity number disc_number) =
        some (.obj [
          ("itemType", .str "Track"),
          ("albumArtists", .arr (album_artists.map Value.str)),
          ("album", .str album),
          ("popularity", .num popularity),
          ("number", .num number),
          ("discNumber", .num disc_number),
          ("artists", .arr (artists.map fun a => Value.str a.name))]) ∧
      ((encodeUniqueFields
          (.Track artists album album_artists popularity number
            disc_number)).getD .null).objKeys =
        ["itemType", "albumArtists", "album", "popularity", "number",
         "discNumber", "artists"] ∧
      "description" ∉ ((encodeUniqueFields
          (.Track artists album album_artists popularity number
            disc_number)).getD .null).objKeys ∧
      "publishTime" ∉ ((encodeUniqueFields
          (.Track artists album album_artists popularity number
            disc_number)).getD .null).objKeys ∧
      "showName" ∉ ((encodeUniqueFields
          (.Track artists album album_artists popularity number
            disc_number)).getD .null).objKeys) ∧
    (∀ description publish_time show_name,
      encodeUniqueFields (.Episode description publish_time show_name) =
        some (.obj [
          ("itemType", .str "Episode"),
          ("description", .str description),
          ("publishTime", .num (OffsetDateTime.unix_timestamp publish_time)),
          ("showName", .str show_name)]) ∧
      ((encodeUniqueFields
          (.Episode description publish_time show_name)).getD .null).objKeys =
        ["itemType", "description", "publishTime", "showName"] ∧
      "albumArtists" ∉ ((encodeUniqueFields
          (.Episode description publish_time show_name)).getD .null).objKeys ∧
      "album" ∉ ((encodeUniqueFields
          (.Episode description publish_time show_name)).getD .null).objKeys ∧
      "popularity" ∉ ((encodeUniqueFields
          (.Episode description publish_time show_name)).getD .null).objKeys ∧
      "number" ∉ ((encodeUniqueFields
          (.Episode description publish_time show_name)).getD .null).objKeys ∧
      "discNumber" ∉ ((encodeUniqueFields
          (.Episode description publish_time show_name)).getD .null).objKeys ∧
      "artists" ∉ ((encodeUniqueFields
          (.Episode description publish_time show_name)).getD .null).objKeys) := by
  refine ⟨by simp [translate, h], ?_, ?_⟩
  · intro artists album album_artists popularity number disc_number
    refine ⟨rfl, rfl, ?_, ?_, ?_⟩ <;>
      simp [encodeUniqueFields, Value.objKeys]
  · intro description publish_time show_name
    refine ⟨rfl, rfl, ?_, ?_, ?_, ?_, ?_, ?_⟩ <;>
      simp [encodeUniqueFields, Value.objKeys]

/-- Witness for C4 at a concrete `TrackChanged` event carrying an
`Episode` descriptor whose identifier encodes to `"id1"`. -/
theorem C4_extraFields_encoding_witness :
    (AudioItem.mk (.valid "id1") "u" "n" [] [] 100 false
        (.Episode "d" ⟨5⟩ "s")).track_id.to_base62 = .ok "id1" ∧
    (translate (.TrackChanged (AudioItem.mk (.valid "id1") "u" "n" [] [] 100
        false (.Episode "d" ⟨5⟩ "s")))).json_obj =
      some (.obj [
        ("trackId", .str "id1"),
        ("uri", .str "u"),
        ("name", .str "n"),
        ("covers", .arr []),
        ("language", .arr []),
        ("durationMs", .num 100),
        ("isExplicit", .bool false),
        ("extraFields",
         encodeOption (encodeUniqueFields (.Episode "d" ⟨5⟩ "s")))]) :=
  ⟨rfl, by
    have h := (C4_extraFields_encoding
      (AudioItem.mk (.valid "id1") "u" "n" [] [] 100 false
        (.Episode "d" ⟨5⟩ "s")) "id1" rfl).1
    simpa using h⟩

/-- C6: for every `Playing`, `Paused`, `Seeked` and `PositionCorrection`
event whose track identifier encodes successfully, the payload contains a
`positionMs` field equal to the exact numeric `position_ms` value carried
by the event, alongside the encoded `trackId`. -/
theorem C6_positionMs_exact (track_id : SpotifyId) (position_ms : Int)
    (id : String) (h : track_id.to_base62 = .ok id) :
    translate (.Playing track_id position_ms) =
      ⟨"playing", some (.obj [("trackId", .str id),
        ("positionMs", .num position_ms)]), []⟩ ∧
    translate (.Paused track_id position_ms) =
      ⟨"paused", some (.obj [("trackId", .str id),
        ("positionMs", .num position_ms)]), []⟩ ∧
    translate (.Seeked track_id position_ms) =
      ⟨"seeked", some (.obj [("trackId", .str id),
        ("positionMs", .num position_ms)]), []⟩ ∧
    translate (.PositionCorrection track_id position_ms) =
      ⟨"positionCorrection", some (.obj [("trackId", .str id),
        ("positionMs", .num position_ms)]), []⟩ := by
  refine ⟨?_, ?_, ?_, ?_⟩ <;> simp [translate, h]

/-- Witness for C6 at a concrete identifier encoding to
`"4uLU6hMCjMI75M1A2tKUQC"` and position 15234. -/
theorem C6_positionMs_exact_witness :
    translate (.Playing (.valid "4uLU6hMCjMI75M1A2tKUQC") 15234) =
      ⟨"playing", some (.obj [("trackId", .str "4uLU6hMCjMI75M1A2tKUQC"),
        ("positionMs", .num 15234)]), []⟩ ∧
    translate (.Paused (.valid "4uLU6hMCjMI75M1A2tKUQC") 15234) =
      ⟨"paused", some (.obj [("trackId", .str "4uLU6hMCjMI75M1A2tKUQC"),
        ("positionMs", .num 15234)]), []⟩ ∧
    translate (.Seeked (.valid "4uLU6hMCjMI75M1A2tKUQC") 15234) =
      ⟨"seeked", some (.obj [("trackId", .str "4uLU6hMCjMI75M1A2tKUQC"),
        ("positionMs", .num 15234)]), []⟩ ∧
    translate (.PositionCorrection (.valid "4uLU6hMCjMI75M1A2tKUQC") 15234) =
      ⟨"positionCorrection",
       some (.obj [("trackId", .str "4uLU6hMCjMI75M1A2tKUQC"),
        ("positionMs", .num 15234)]), []⟩ :=
  C6_positionMs_exact (.valid "4uLU6hMCjMI75M1A2tKUQC") 15234
    "4uLU6hMCjMI75M1A2tKUQC" rfl

end PlayerEventHandler

namespace PlayerEventHandler

/-- Empty-channel run of the listener loop. -/
lemma runListener_nil (ser : Value → Except String String) :
    runListener ser [] = ⟨[], [], 0⟩ := rfl

/-- The listener loop distributes over concatenation of event sequences. -/
lemma runListener_append (ser : Value → Except String String)
    (l1 l2 : List PlayerEvent) :
    runListener ser (l1 ++ l2) =
      ⟨(runListener ser l1).lines ++ (runListener ser l2).lines,
       (runListener ser l1).warnings ++ (runListener ser l2).warnings,
       (runListener ser l1).processed + (runListener ser l2).processed⟩ := by
  induction l1 with
  | nil => simp [runListener]
  | cons e rest ih =>
      simp only [List.cons_append, runListener_cons, ih, ListenerRun.mk.injEq]
      refine ⟨by simp, by simp, by omega⟩

/-- Every line of a run comes from the emission step of one received event. -/
lemma runListener_lines_bind (ser : Value → Except String String)
    (evs : List PlayerEvent) :
    (runListener ser evs).lines =
      evs.flatMap fun e => (processEvent ser e).1 := by
  induction evs with
  | nil => rfl
  | cons e rest ih => simp [runListener_cons, ih]

/-- Every warning of a run comes from the handling of one received event. -/
lemma runListener_warnings_bind (ser : Value → Except String String)
    (evs : List PlayerEvent) :
    (runListener ser evs).warnings =
      evs.flatMap fun e => (processEvent ser e).2 := by
  induction evs with
  | nil => rfl
  | cons e rest ih => simp [runListener_cons, ih]

/-- C7: on a channel delivering a finite sequence of events and then
closing, the listener loop terminates normally having processed exactly the
delivered events (hence at most N items, each exactly once, in order: the
output is the per-event contributions in sequence order), and releasing the
`EventHandler` joins the background context, yielding the completed run. -/
theorem C7_listener_termination (ser : Value → Except String String)
    (evs : List PlayerEvent) :
    (runListener ser evs).processed = evs.length ∧
    (runListener ser evs).lines =
      (evs.flatMap fun e => (processEvent ser e).1) ∧
    (runListener ser evs).warnings =
      (evs.flatMap fun e => (processEvent ser e).2) ∧
    (EventHandler.new ser evs).drop = some (runListener ser evs) := by
  refine ⟨?_, runListener_lines_bind ser evs,
    runListener_warnings_bind ser evs, rfl⟩
  induction evs with
  | nil => rfl
  | cons e rest ih => simp [runListener_cons, ih]

/-- C8: if serializing a translated notification's document fails, a
warning is logged, no line is written for that event, and the loop
continues with the remaining events (one more event counted as processed,
no error propagated). -/
theorem C8_serialization_failure (ser : Value → Except String String)
    (e : PlayerEvent) (v : Value) (err : String) (rest : List PlayerEvent)
    (h1 : (translate e).json_obj = some v) (h2 : ser v = .error err) :
    (runListener ser (e :: rest)).lines = (runListener ser rest).lines ∧
    (runListener ser (e :: rest)).warnings =
      (translate e).warnings ++ ["Failed to serialize PlayerEvent: " ++ err]
        ++ (runListener ser rest).warnings ∧
    (runListener ser (e :: rest)).processed =
      (runListener ser rest).processed + 1 := by
  have hp : processEvent ser e =
      ([], (translate e).warnings ++
        ["Failed to serialize PlayerEvent: " ++ err]) := by
    simp [processEvent_def, h1, h2]
  refine ⟨?_, ?_, ?_⟩ <;> simp [runListener_cons, hp]

/-- Witness for C8 at the concrete event `VolumeChanged(1)` with a
serializer that fails with message `"boom"` and an empty remaining list. -/
theorem C8_serialization_failure_witness :
    (runListener (fun _ => .error "boom") (.VolumeChanged 1 :: [])).lines =
      (runListener (fun _ => .error "boom") []).lines ∧
    (runListener (fun _ => .error "boom") (.VolumeChanged 1 :: [])).warnings =
      (translate (.VolumeChanged 1)).warnings ++
        ["Failed to serialize PlayerEvent: " ++ "boom"] ++
        (runListener (fun _ => .error "boom") []).warnings ∧
    (runListener (fun _ => .error "boom") (.VolumeChanged 1 :: [])).processed =
      (runListener (fun _ => .error "boom") []).processed + 1 :=
  C8_serialization_failure (fun _ => .error "boom") (.VolumeChanged 1)
    (.obj [("volume", .num 1)]) "boom" [] rfl rfl

/-- Whenever an arm of the translation table produces a payload, it has
also set the notification name, so the name is never the placeholder. -/
lemma translate_some_name (e : PlayerEvent) (v : Value)
    (h : (translate e).json_obj = some v) :
    (translate e).event_name ≠ "unknown" := by
  cases e with
  | PlayRequestIdChanged play_request_id => simp [translate]
  | TrackChanged audio_item =>
      cases hti : audio_item.track_id.to_base62 <;>
        simp_all [translate, hti]
  | Stopped track_id =>
      cases hti : track_id.to_base62 <;> simp_all [translate, hti]
  | Playing track_id position_ms =>
      cases hti : track_id.to_base62 <;> simp_all [translate, hti]
  | Paused track_id position_ms =>
      cases hti : track_id.to_base62 <;> simp_all [translate, hti]
  | Loading track_id =>
      cases hti : track_id.to_base62 <;> simp_all [translate, hti]
  | Preloading track_id =>
      cases hti : track_id.to_base62 <;> simp_all [translate, hti]
  | TimeToPreloadNextTrack track_id =>
      cases hti : track_id.to_base62 <;> simp_all [translate, hti]
  | EndOfTrack track_id =>
      cases hti : track_id.to_base62 <;> simp_all [translate, hti]
  | Unavailable track_id =>
      cases hti : track_id.to_base62 <;> simp_all [translate, hti]
  | VolumeChanged volume => simp [translate]
  | Seeked track_id position_ms =>
      cases hti : track_id.to_base62 <;> simp_all [translate, hti]
  | PositionCorrection track_id position_ms =>
      cases hti : track_id.to_base62 <;> simp_all [translate, hti]
  | SessionConnected connection_id user_name => simp [translate]
  | SessionDisconnected connection_id user_name => simp [translate]
  | SessionClientChanged a b c d => simp [translate]
  | ShuffleChanged shuffle => simp [translate]
  | RepeatChanged repeat_state => simp [translate]
  | AutoPlayChanged auto_play => simp [translate]
  | FilterExplicitContentChanged filter => simp [translate]

/-- C9: every output line written by the listener carries a notification
name assigned by the matched arm; the initial placeholder `"unknown"` is
never emitted, because a line is written only when the arm produced a
payload, and every payload-producing arm also sets the name. -/
theorem C9_no_unknown_name (ser : Value → Except String String)
    (evs : List PlayerEvent) (l : Line)
    (hl : l ∈ (runListener ser evs).lines) :
    l.event_name ≠ "unknown" := by
  induction evs with
  | nil => simp [runListener] at hl
  | cons e rest ih =>
      rw [runListener_cons] at hl
      rcases List.mem_append.mp hl with h1 | h2
      · cases hj : (translate e).json_obj with
        | none => simp only [processEvent_def, hj] at h1; simp at h1
        | some v =>
            cases hs : ser v with
            | error err =>
                simp only [processEvent_def, hj, hs] at h1
                simp at h1
            | ok s =>
                simp only [processEvent_def, hj, hs] at h1
                simp at h1
                subst h1
                exact translate_some_name e v hj
      · exact ih h2

/-- Witness for C9 at the line emitted for the concrete event
`VolumeChanged(5)` under the rendering serializer. -/
theorem C9_no_unknown_name_witness :
    Line.mk "volumeChanged" "\x7b\"volume\":5\x7d" ∈
      (runListener (fun v => .ok v.render) (.VolumeChanged 5 :: [])).lines ∧
    (Line.mk "volumeChanged" "\x7b\"volume\":5\x7d").event_name ≠
      "unknown" :=
  ⟨by decide, C9_no_unknown_name (fun v => .ok v.render)
    (.VolumeChanged 5 :: []) (Line.mk "volumeChanged" "\x7b\"volume\":5\x7d")
    (by decide)⟩

/-- C10: translation is a pure, deterministic function of the single event
value: the translation table is a function (`translate`), so equal events
with equal encoding outcomes yield equal results, and the lines and
warnings contributed for an event are independent of the events processed
before or after it in the listener run. -/
theorem C10_translate_pure (ser : Value → Except String String)
    (pre post : List PlayerEvent) (e : PlayerEvent) :
    (runListener ser (pre ++ e :: post)).lines =
      (runListener ser pre).lines ++ (processEvent ser e).1 ++
        (runListener ser post).lines ∧
    (runListener ser (pre ++ e :: post)).warnings =
      (runListener ser pre).warnings ++ (processEvent ser e).2 ++
        (runListener ser post).warnings ∧
    processEvent ser e =
      (match translate e with
       | ⟨event_name, some v, warnings⟩ =>
           (match ser v with
            | .ok s => ([⟨event_name, s⟩], warnings)
            | .error e2 => ([],
                warnings ++ ["Failed to serialize PlayerEvent: " ++ e2]))
       | ⟨_, none, warnings⟩ => ([], warnings)) := by
  refine ⟨?_, ?_, rfl⟩ <;>
    simp [runListener_append, runListener_cons, List.append_assoc]

end PlayerEventHandler
